import Mathlib

/-!
Verification development for the `libdns-ods` provider (`src/provider.go`).

The provider is a line-oriented TCP protocol adapter.  Its observable
behaviour splits into two parts:

* pure text processing — building command strings and parsing the server's
  `LISTRR` response into records (`GetRecords` lines 73–128, the command
  formatting lines 140, 164–167, 189);
* a thin network skeleton — dial, banner read, `LOGIN` exchange, and a
  per-record best-effort loop (`connect` lines 37–58, the three write
  operations).

The text processing is embedded here as executable functions over Lean
strings, processed character-wise (the transcripts of interest are ASCII;
Go indexes bytes, which agrees with characters on ASCII input).  The
network side is embedded as deterministic functions of an explicit oracle
(`ConnAttempt`, per-exchange outcomes) recording what each `sendCommand`
call would have produced.  A Go runtime panic (out-of-range slice) is
modelled explicitly: `LineParse.panicked` / `Option.none` results.
-/

namespace LibdnsOds

/-- Splits a character list at every character satisfying `p`, keeping empty
segments, like Go `strings.Split` with a one-character separator (and, before
filtering, like the segmentation underlying `strings.Fields`). -/
def splitChars (p : Char → Bool) : List Char → List (List Char)
  | [] => [[]]
  | c :: cs =>
    if p c then [] :: splitChars p cs
    else
      match splitChars p cs with
      | [] => [[c]]
      | t :: ts => (c :: t) :: ts

/-- Go `strings.Split(s, sep)` for a one-character separator `sep`. -/
def goSplitOn (sep : Char) (s : String) : List String :=
  (splitChars (fun c => c = sep) s.toList).map String.mk

/-- Go `strings.Fields`: whitespace-separated tokens, no empty tokens.
Character-level model of source line 80's `strings.Fields(line[4:])`. -/
def goFields (s : String) : List String :=
  ((splitChars (fun c => c.isWhitespace) s.toList).map String.mk).filter
    (fun t => t != "")

/-- Whether the first list is a leading segment of the second. -/
def startsWithChars : List Char → List Char → Bool
  | [], _ => true
  | _ :: _, [] => false
  | p :: ps, c :: cs => p = c && startsWithChars ps cs

/-- Go `strings.HasPrefix(s, pre)`. -/
def goStartsWith (s pre : String) : Bool :=
  startsWithChars pre.toList s.toList

/-- Whether `sub` occurs as a contiguous segment of the list. -/
def containsChars (sub : List Char) : List Char → Bool
  | [] => startsWithChars sub []
  | c :: cs => startsWithChars sub (c :: cs) || containsChars sub cs

/-- Go `strings.Contains(s, sub)` (source line 52's check for `"225"`). -/
def goContains (s sub : String) : Bool :=
  containsChars sub.toList s.toList

/-- Go `s[n:]` on ASCII text: drop the first `n` characters.  The Go
expression panics when `n` exceeds the length; callers model that bound
explicitly before using this function. -/
def goDrop (s : String) (n : Nat) : String :=
  String.mk (s.toList.drop n)

/-- Numeric value of a list of decimal digit characters. -/
def digitsToNat (ds : List Char) : Nat :=
  ds.foldl (fun a c => a * 10 + (c.toNat - 48)) 0

/-- Go `strconv.Atoi`: optional sign, then decimal digits only; `none` models
a non-nil error (empty input, stray characters, or a value outside the 64-bit
integer range, which Go reports as `ErrRange`). -/
def goAtoi (s : String) : Option Int :=
  match s.toList with
  | [] => none
  | c :: cs =>
    let signed : Bool × List Char :=
      if c = '-' then (true, cs)
      else if c = '+' then (false, cs)
      else (false, c :: cs)
    if signed.2.isEmpty then none
    else if signed.2.all (fun d => d.isDigit) then
      let v : Int := if signed.1 then -(digitsToNat signed.2 : Int) else (digitsToNat signed.2 : Int)
      if -(2 ^ 63) ≤ v ∧ v ≤ 2 ^ 63 - 1 then some v else none
    else none

/-- Reduction of an integer into the signed 64-bit range, as Go's `int64`
arithmetic wraps on overflow. -/
def wrap64 (v : Int) : Int :=
  (v + 2 ^ 63).emod (2 ^ 64) - 2 ^ 63

/-- Go `time.Duration(s) * time.Second`: seconds to nanoseconds with 64-bit
wraparound (source lines 95 and 113). -/
def goMulSecond (s : Int) : Int :=
  wrap64 (s * 1000000000)

/-- A DNS record as the provider sees it (`libdns.Record`): the Go fields
`Type`, `Name`, `Value`, `TTL`.  `Type` is not a legal Lean field name, so it
is `rtype` here; `ttl` is the `time.Duration` in nanoseconds (Go `int64`). -/
structure Record where
  rtype : String
  name : String
  value : String
  ttl : Int
deriving DecidableEq, Repr

/-- TTL extracted from the colon-split of a `value[:ttl]` token: source lines
91–97.  Zero when there is no colon suffix or `Atoi` fails. -/
def baseTTL (valueParts : List String) : Int :=
  if 1 < valueParts.length then
    match goAtoi (valueParts.getD 1 "") with
    | some s => goMulSecond s
    | none => 0
  else 0

/-- The SRV re-parse of TTL from the 7th token, source lines 108–115: the
previous TTL is kept when there is no colon suffix or `Atoi` fails. -/
def srvTTL (valueParts : List String) (ttl : Int) : Int :=
  if 1 < valueParts.length then
    match goAtoi (valueParts.getD 1 "") with
    | some s => goMulSecond s
    | none => ttl
  else ttl

/-- Go `strings.Split(valueAndTTL, ":")` (source lines 89 and 109). -/
def splitColon (s : String) : List String :=
  goSplitOn ':' s

/-- Builds the record from the whitespace tokens of a kept response line,
source lines 85–124.  The Go code computes the base parse (`domain`,
`recordType`, colon-split of the last token) and then overrides `value` for
`MX` with 4 tokens, and `value`/`ttl` for `SRV` with at least 6 tokens; the
three branches below spell out the resulting record of each path with the
shared subterms inlined. -/
def recordFromParts (parts : List String) : Record :=
  if parts.getD 1 "" = "MX" ∧ parts.length = 4 then
    { rtype := parts.getD 1 "", name := parts.getD 0 "",
      value := parts.getD 2 "",
      ttl := baseTTL (splitColon (parts.getD (parts.length - 1) "")) }
  else if parts.getD 1 "" = "SRV" ∧ 6 ≤ parts.length then
    { rtype := parts.getD 1 "", name := parts.getD 0 "",
      value := parts.getD 2 "" ++ " " ++ parts.getD 3 "" ++ " " ++
        parts.getD 4 "" ++ " " ++ parts.getD 5 "",
      ttl :=
        if parts.length = 7 then
          srvTTL (splitColon (parts.getD 6 ""))
            (baseTTL (splitColon (parts.getD (parts.length - 1) "")))
        else baseTTL (splitColon (parts.getD (parts.length - 1) "")) }
  else
    { rtype := parts.getD 1 "", name := parts.getD 0 "",
      value := (splitColon (parts.getD (parts.length - 1) "")).getD 0 "",
      ttl := baseTTL (splitColon (parts.getD (parts.length - 1) "")) }

/-- Outcome of the loop body of `GetRecords` on one response line:
`panicked` models the Go runtime panic of `line[4:]` when the line is
shorter than 4 bytes, `skipped` the two `continue` paths, `record` an
appended record. -/
inductive LineParse where
  | panicked
  | skipped
  | record (r : Record)
deriving DecidableEq, Repr

/-- One iteration of the response loop, source lines 75–125: keep only lines
starting with `"151"`, slice off the 4-character status prefix (a panic when
the line has fewer than 4 characters), tokenize, require at least 3 tokens. -/
def parseLine (line : String) : LineParse :=
  if goStartsWith line "151" then
    if line.length < 4 then LineParse.panicked
    else
      if (goFields (goDrop line 4)).length < 3 then LineParse.skipped
      else LineParse.record (recordFromParts (goFields (goDrop line 4)))
  else LineParse.skipped

/-- The full response loop over a list of lines; `none` models the whole call
dying in a panic (no record list is ever returned then). -/
def parseLines : List String → Option (List Record)
  | [] => some []
  | l :: ls =>
    match parseLine l with
    | LineParse.panicked => none
    | LineParse.skipped => parseLines ls
    | LineParse.record r => (parseLines ls).map (fun rs => r :: rs)

/-- Parsing part of `GetRecords`, source lines 73–128: split the response on
newlines and run the loop. -/
def getRecordsParse (response : String) : Option (List Record) :=
  parseLines (goSplitOn '\n' response)

/-- Decimal rendering of the `float64` produced by `Duration.Seconds()`, as
Go's `%v` prints it inside a bad-verb marker.  Faithful for durations that
are a whole number of seconds of moderate magnitude — the only case exercised
in this file; fractional or astronomically large durations would involve
float64 rounding and scientific notation, which this integer model does not
capture. -/
def goSecondsFloatRepr (ns : Int) : String :=
  toString (Int.tdiv ns 1000000000)

/-- The command built by `AppendRecords`, source line 140.  The Go code
formats `record.TTL.Seconds()` — a `float64` — with the `%d` verb, so `fmt`
emits the bad-verb marker `%!d(float64=<value>)` instead of an integer. -/
def appendCommand (r : Record) : String :=
  "ADDRR " ++ r.name ++ " " ++ r.rtype ++ " " ++ r.value ++
    ":%!d(float64=" ++ goSecondsFloatRepr r.ttl ++ ")"

/-- Go `int(d.Seconds())`: whole seconds of a duration, truncated toward
zero (the float64 rounding of `Seconds` itself is not modelled; exact for the
moderate whole-second durations exercised here). -/
def goSecondsInt (ns : Int) : Int :=
  Int.tdiv ns 1000000000

/-- The command built by `SetRecords`, source lines 164–167: the TTL suffix
is attached only for `SRV` records. -/
def setCommand (r : Record) : String :=
  if r.rtype = "SRV" then
    "ADDRR " ++ r.name ++ " " ++ r.rtype ++ " " ++ r.value ++ ":" ++
      toString (goSecondsInt r.ttl)
  else
    "ADDRR " ++ r.name ++ " " ++ r.rtype ++ " " ++ r.value

/-- The command built by `DeleteRecords`, source line 189. -/
def deleteCommand (r : Record) : String :=
  "DELRR " ++ r.name ++ " " ++ r.rtype ++ " " ++ r.value

/-- Outcome of one `sendCommand` exchange: an I/O error from the write or
read, or the response text that the single buffered read produced. -/
inductive NetResult where
  | err
  | resp (s : String)
deriving DecidableEq, Repr

/-- Oracle for one `connect()` run: whether `net.Dial` succeeds, and the
outcomes of the banner-skipping exchange and of the `LOGIN` exchange. -/
structure ConnAttempt where
  dialOk : Bool
  banner : NetResult
  login : NetResult
deriving DecidableEq, Repr

/-- Result of `connect()`: dial failed (no socket was ever opened), an error
return after the socket was closed, or an authenticated connection. -/
inductive ConnectResult where
  | noConn
  | failedClosed
  | connected
deriving DecidableEq, Repr

/-- The `connect` function, source lines 37–58: dial, discard the banner,
send `LOGIN`, and require `"225"` somewhere in the response; every error path
after a successful dial runs `conn.Close()` before returning. -/
def connect (a : ConnAttempt) : ConnectResult :=
  if a.dialOk then
    match a.banner with
    | NetResult.err => ConnectResult.failedClosed
    | NetResult.resp _ =>
      match a.login with
      | NetResult.err => ConnectResult.failedClosed
      | NetResult.resp r =>
        if goContains r "225" then ConnectResult.connected
        else ConnectResult.failedClosed
  else ConnectResult.noConn

/-- Outcome of a public operation: a Go panic, an error return, or a value. -/
inductive GoResult (α : Type) where
  | panicked
  | failed
  | ok (val : α)
deriving DecidableEq, Repr

/-- The shared per-record best-effort loop of `AppendRecords`, `SetRecords`
and `DeleteRecords` (source lines 139–148, 161–174, 187–196): record `i` of
the batch is echoed into the result exactly when its exchange succeeded
(`ok i`); a failure is logged and the loop continues. -/
def processRecords (ok : Nat → Bool) (i : Nat) : List Record → List Record
  | [] => []
  | r :: rs =>
    if ok i then r :: processRecords ok (i + 1) rs
    else processRecords ok (i + 1) rs

/-- `GetRecords`, source lines 60–129, as a function of the connection oracle
and of the `LISTRR` exchange outcome.  The second component lists the
commands sent after `connect` returned. -/
def GetRecords (a : ConnAttempt) (zone : String) (listResp : NetResult) :
    GoResult (List Record) × List String :=
  match connect a with
  | ConnectResult.connected =>
    (match listResp with
     | NetResult.err => GoResult.failed
     | NetResult.resp s =>
       match getRecordsParse s with
       | some recs => GoResult.ok recs
       | none => GoResult.panicked,
     ["LISTRR " ++ zone])
  | _ => (GoResult.failed, [])

/-- `AppendRecords`, source lines 131–151: on a failed connect the error is
returned at once and no command is sent; otherwise one `ADDRR` command per
input record is attempted, in input order, and the successful ones are
echoed. -/
def AppendRecords (a : ConnAttempt) (records : List Record) (ok : Nat → Bool) :
    GoResult (List Record) × List String :=
  match connect a with
  | ConnectResult.connected =>
    (GoResult.ok (processRecords ok 0 records), records.map appendCommand)
  | _ => (GoResult.failed, [])

/-- `SetRecords`, source lines 153–177: same skeleton as `AppendRecords` with
the `setCommand` shape. -/
def SetRecords (a : ConnAttempt) (records : List Record) (ok : Nat → Bool) :
    GoResult (List Record) × List String :=
  match connect a with
  | ConnectResult.connected =>
    (GoResult.ok (processRecords ok 0 records), records.map setCommand)
  | _ => (GoResult.failed, [])

/-- `DeleteRecords`, source lines 179–199: same skeleton with `DELRR`. -/
def DeleteRecords (a : ConnAttempt) (records : List Record) (ok : Nat → Bool) :
    GoResult (List Record) × List String :=
  match connect a with
  | ConnectResult.connected =>
    (GoResult.ok (processRecords ok 0 records), records.map deleteCommand)
  | _ => (GoResult.failed, [])

/-- The login exchange failed: the banner read or the `LOGIN` exchange hit an
I/O error, or the login response lacks the `"225"` marker. -/
def loginRejected (a : ConnAttempt) : Prop :=
  a.banner = NetResult.err ∨ a.login = NetResult.err ∨
    ∃ s, a.login = NetResult.resp s ∧ goContains s "225" = false

/-- Per-record outcome function that succeeds everywhere. -/
def alwaysOk : Nat → Bool := fun _ => true

/-- Per-record outcome function that fails exactly at index `k`. -/
def failAt (k : Nat) : Nat → Bool := fun j => j != k

/-- A connection oracle whose login is rejected (`"535 denied"` has no
`"225"`). -/
def attemptRejected : ConnAttempt :=
  { dialOk := true, banner := NetResult.resp "220 hi",
    login := NetResult.resp "535 denied" }

/-- A connection oracle whose login succeeds. -/
def attemptOk : ConnAttempt :=
  { dialOk := true, banner := NetResult.resp "220 hi",
    login := NetResult.resp "225 OK" }

/-! ## Helper lemmas -/

theorem mem_goFields_ne (s t : String) (h : t ∈ goFields s) : t ≠ "" := by
  unfold goFields at h
  have h2 := (List.mem_filter.mp h).2
  simpa using h2

theorem getD_mem_of_lt {α : Type} (l : List α) (d : α) (i : Nat)
    (h : i < l.length) : l.getD i d ∈ l := by
  induction l generalizing i with
  | nil => simp at h
  | cons a as ih =>
    cases i with
    | zero => simp
    | succ n =>
      simp only [List.getD_cons_succ]
      exact List.mem_cons_of_mem _ (ih n (by simpa using h))

theorem srvTTL_self (vp : List String) : srvTTL vp (baseTTL vp) = baseTTL vp := by
  unfold srvTTL
  split_ifs with h
  · cases hx : goAtoi (vp.getD 1 "") with
    | some s =>
      unfold baseTTL
      rw [if_pos h, hx]
    | none => rfl
  · rfl

theorem recordFromParts_rtype (parts : List String) :
    (recordFromParts parts).rtype = parts.getD 1 "" := by
  unfold recordFromParts
  split_ifs <;> rfl

theorem recordFromParts_name (parts : List String) :
    (recordFromParts parts).name = parts.getD 0 "" := by
  unfold recordFromParts
  split_ifs <;> rfl

theorem recordFromParts_ttl (parts : List String) :
    (recordFromParts parts).ttl =
      baseTTL (splitColon (parts.getD (parts.length - 1) "")) := by
  unfold recordFromParts
  split_ifs with h1 h2 h3
  · rfl
  · show srvTTL (splitColon (parts.getD 6 ""))
        (baseTTL (splitColon (parts.getD (parts.length - 1) ""))) = _
    rw [h3]
    show srvTTL (splitColon (parts.getD 6 ""))
        (baseTTL (splitColon (parts.getD 6 ""))) = _
    rw [srvTTL_self]
  · rfl
  · rfl

theorem recordFromParts_value_mx (parts : List String)
    (hm : parts.getD 1 "" = "MX") (h4 : parts.length = 4) :
    (recordFromParts parts).value = parts.getD 2 "" := by
  unfold recordFromParts
  rw [if_pos ⟨hm, h4⟩]

theorem recordFromParts_value_srv (parts : List String)
    (hs : parts.getD 1 "" = "SRV") (h6 : 6 ≤ parts.length) :
    (recordFromParts parts).value =
      parts.getD 2 "" ++ " " ++ parts.getD 3 "" ++ " " ++
        parts.getD 4 "" ++ " " ++ parts.getD 5 "" := by
  unfold recordFromParts
  have hmx : ¬(parts.getD 1 "" = "MX" ∧ parts.length = 4) := by
    rintro ⟨h, _⟩
    rw [hs] at h
    exact absurd h (by decide)
  rw [if_neg hmx, if_pos ⟨hs, h6⟩]

theorem recordFromParts_value_base (parts : List String)
    (hmx : ¬(parts.getD 1 "" = "MX" ∧ parts.length = 4))
    (hsrv : ¬(parts.getD 1 "" = "SRV" ∧ 6 ≤ parts.length)) :
    (recordFromParts parts).value =
      (splitColon (parts.getD (parts.length - 1) "")).getD 0 "" := by
  unfold recordFromParts
  rw [if_neg hmx, if_neg hsrv]

theorem parseLine_record_inv (line : String) (r : Record)
    (h : parseLine line = LineParse.record r) :
    goStartsWith line "151" = true ∧ 4 ≤ line.length ∧
      3 ≤ (goFields (goDrop line 4)).length ∧
      r = recordFromParts (goFields (goDrop line 4)) := by
  unfold parseLine at h
  by_cases h1 : goStartsWith line "151" = true
  · rw [if_pos h1] at h
    by_cases h2 : line.length < 4
    · rw [if_pos h2] at h
      exact absurd h (by simp)
    · rw [if_neg h2] at h
      by_cases h3 : (goFields (goDrop line 4)).length < 3
      · rw [if_pos h3] at h
        exact absurd h (by simp)
      · rw [if_neg h3] at h
        injection h with h'
        exact ⟨h1, by omega, by omega, h'.symm⟩
  · rw [if_neg h1] at h
    exact absurd h (by simp)

theorem parseLine_skipped_of (line : String)
    (h : goStartsWith line "151" = false ∨
      (4 ≤ line.length ∧ (goFields (goDrop line 4)).length < 3)) :
    parseLine line = LineParse.skipped := by
  unfold parseLine
  split_ifs with h1 h2 h3
  · rcases h with h | h
    · rw [h1] at h; exact absurd h (by simp)
    · omega
  · rfl
  · rcases h with h | h
    · rw [h1] at h; exact absurd h (by simp)
    · omega
  · rfl

theorem parseLines_all_skip (ls : List String)
    (h : ∀ l ∈ ls, parseLine l = LineParse.skipped) :
    parseLines ls = some [] := by
  induction ls with
  | nil => rfl
  | cons l ls ih =>
    unfold parseLines
    rw [h l (List.mem_cons_self l ls)]
    exact ih (fun l' hl' => h l' (List.mem_cons_of_mem _ hl'))

theorem parseLines_mem (ls : List String) (recs : List Record) (r : Record)
    (h : parseLines ls = some recs) (hr : r ∈ recs) :
    ∃ l, l ∈ ls ∧ parseLine l = LineParse.record r := by
  induction ls generalizing recs with
  | nil =>
    unfold parseLines at h
    cases h
    simp at hr
  | cons l ls ih =>
    unfold parseLines at h
    cases hpl : parseLine l with
    | panicked => rw [hpl] at h; exact absurd h (by simp)
    | skipped =>
      rw [hpl] at h
      obtain ⟨l', hl', hpl'⟩ := ih recs h hr
      exact ⟨l', List.mem_cons_of_mem _ hl', hpl'⟩
    | record r0 =>
      rw [hpl] at h
      cases hp : parseLines ls with
      | none => rw [hp] at h; exact absurd h (by simp)
      | some rest =>
        rw [hp] at h
        simp only [Option.map_some', Option.some.injEq] at h
        subst h
        rcases List.mem_cons.mp hr with hr0 | hrest
        · subst hr0
          exact ⟨l, List.mem_cons_self l ls, hpl⟩
        · obtain ⟨l', hl', hpl'⟩ := ih rest hp hrest
          exact ⟨l', List.mem_cons_of_mem _ hl', hpl'⟩


theorem processRecords_all_ok (recs : List Record) (ok : Nat → Bool) (i : Nat)
    (h : ∀ j, j < recs.length → ok (i + j) = true) :
    processRecords ok i recs = recs := by
  induction recs generalizing i with
  | nil => rfl
  | cons r rs ih =>
    have h0 : ok i = true := by simpa using h 0 (by simp)
    unfold processRecords
    rw [h0]
    simp only [if_true]
    rw [ih (i + 1) (fun j hj => by
      have heq : (i + 1) + j = i + (j + 1) := by omega
      rw [heq]
      exact h (j + 1) (by simpa using Nat.succ_lt_succ hj))]

theorem processRecords_one_fail (recs : List Record) (ok : Nat → Bool)
    (i k : Nat) (hk : k < recs.length) (hfail : ok (i + k) = false)
    (hok : ∀ j, j < recs.length → j ≠ k → ok (i + j) = true) :
    processRecords ok i recs = recs.eraseIdx k := by
  induction recs generalizing i k with
  | nil => simp at hk
  | cons r rs ih =>
    cases k with
    | zero =>
      have h0 : ok i = false := by simpa using hfail
      unfold processRecords
      rw [h0]
      simp only [if_false, List.eraseIdx_cons_zero]
      exact processRecords_all_ok rs ok (i + 1) (fun j hj => by
        have heq : (i + 1) + j = i + (j + 1) := by omega
        rw [heq]
        exact hok (j + 1) (by simpa using Nat.succ_lt_succ hj) (Nat.succ_ne_zero j))
    | succ k' =>
      have h0 : ok i = true := by
        have := hok 0 (by simp) (by omega)
        simpa using this
      unfold processRecords
      rw [h0]
      simp only [if_true, List.eraseIdx_cons_succ]
      rw [ih (i + 1) k' (by simpa using hk)
        (by have heq : (i + 1) + k' = i + (k' + 1) := by omega
            rw [heq]; exact hfail)
        (fun j hj hne => by
          have heq : (i + 1) + j = i + (j + 1) := by omega
          rw [heq]
          exact hok (j + 1) (by simpa using Nat.succ_lt_succ hj) (by omega))]

theorem processRecords_sublist (recs : List Record) (ok : Nat → Bool) (i : Nat) :
    List.Sublist (processRecords ok i recs) recs := by
  induction recs generalizing i with
  | nil => simp [processRecords]
  | cons r rs ih =>
    unfold processRecords
    split_ifs
    · exact List.Sublist.cons₂ r (ih (i + 1))
    · exact List.Sublist.cons r (ih (i + 1))

theorem length_eraseIdx_of_lt {α : Type} (l : List α) (k : Nat)
    (h : k < l.length) : (l.eraseIdx k).length = l.length - 1 := by
  induction l generalizing k with
  | nil => simp at h
  | cons a as ih =>
    cases k with
    | zero => simp
    | succ n =>
      simp only [List.eraseIdx_cons_succ, List.length_cons]
      rw [ih n (by simpa using h)]
      have h' : n < as.length := by simpa using h
      omega

/-! ## The claims -/

/-- C1: the claim says `AppendRecords` sends `ADDRR <name> <type>
<value>:<ttlSeconds>` with the TTL rendered as an integer number of seconds.
The code formats `record.TTL.Seconds()` — a `float64` — with the `%d` verb
(source line 140; compare the explicit `int(...)` cast in `SetRecords`, line
166), so the text after the colon is Go's bad-verb marker
`%!d(float64=300)`, not the integer `300`.  Commands are still issued one
per record, in input order. -/
theorem C1_append_command_bad_verb :
    appendCommand
        { rtype := "A", name := "test.example.com",
          value := "1.2.3.4", ttl := 300 * 1000000000 } =
      "ADDRR test.example.com A 1.2.3.4:%!d(float64=300)" ∧
    appendCommand
        { rtype := "A", name := "test.example.com",
          value := "1.2.3.4", ttl := 300 * 1000000000 } ≠
      "ADDRR test.example.com A 1.2.3.4:300" ∧
    (AppendRecords attemptOk
        [{ rtype := "A", name := "a.example.com", value := "1.2.3.4", ttl := 300 * 1000000000 },
         { rtype := "AAAA", name := "b.example.com", value := "fe80", ttl := 60 * 1000000000 }]
        alwaysOk).2 =
      ["ADDRR a.example.com A 1.2.3.4:%!d(float64=300)",
       "ADDRR b.example.com AAAA fe80:%!d(float64=60)"] :=
  ⟨by decide, by decide, by decide⟩

/-- C2 counterexample: the claim quantifies over every server response, but
for the response consisting of the single line `151` the parse loop panics
(`line[4:]` on a 3-character line) instead of returning the empty record
list. -/
theorem C2_counterexample : getRecordsParse "151" ≠ some [] := by decide

/-- C2 (amended to responses none of whose lines is exactly `151`): a line
not starting with `151` is skipped without error, a line with fewer than 3
tokens after the 4-character prefix is skipped without error, and a response
in which every line is of one of those two shapes yields the empty record
list, not an error. -/
theorem C2_skip_and_empty :
    (∀ line : String, goStartsWith line "151" = false →
      parseLine line = LineParse.skipped) ∧
    (∀ line : String, 4 ≤ line.length →
      (goFields (goDrop line 4)).length < 3 →
      parseLine line = LineParse.skipped) ∧
    (∀ response : String,
      (∀ l ∈ goSplitOn '\n' response,
        goStartsWith l "151" = false ∨
          (4 ≤ l.length ∧ (goFields (goDrop l 4)).length < 3)) →
      getRecordsParse response = some []) := by
  refine ⟨?_, ?_, ?_⟩
  · intro line h
    exact parseLine_skipped_of line (Or.inl h)
  · intro line h4 h3
    exact parseLine_skipped_of line (Or.inr ⟨h4, h3⟩)
  · intro response h
    unfold getRecordsParse
    exact parseLines_all_skip _ (fun l hl => parseLine_skipped_of l (h l hl))

/-- C2 witness: a status line, a kept-prefix line with too few tokens, and a
response with no qualifying line. -/
theorem C2_skip_and_empty_witness :
    parseLine "400 ERR" = LineParse.skipped ∧
    parseLine "151 ab" = LineParse.skipped ∧
    getRecordsParse "greeting\n152 done" = some [] :=
  ⟨C2_skip_and_empty.1 "400 ERR" (by decide),
   C2_skip_and_empty.2.1 "151 ab" (by decide) (by decide),
   C2_skip_and_empty.2.2 "greeting\n152 done" (by decide)⟩

/-- C3: the claim asserts that the slice stripping the 4-character status
prefix is always in bounds.  It is not: a response line that is exactly
`151` starts with `151` but has length 3, so `line[4:]` (source line 80)
panics with a slice-bounds error, and the whole `GetRecords` call dies even
when another line of the response is well-formed. -/
theorem C3_parse_panics_on_bare_151 :
    parseLine "151" = LineParse.panicked ∧
    getRecordsParse "151 example.com A 1.2.3.4:300\n151" = none :=
  ⟨by decide, by decide⟩

/-- C4 counterexample: the claim says no returned record has an empty
`Value`, but a kept line whose last token starts with a colon (here `:300`)
parses to a record with `Value = ""`. -/
theorem C4_counterexample :
    getRecordsParse "151 example.com A :300" =
      some [{ rtype := "A", name := "example.com", value := "",
              ttl := 300 * 1000000000 }] ∧
    ({ rtype := "A", name := "example.com", value := "",
       ttl := 300 * 1000000000 } : Record).value = "" :=
  ⟨by decide, rfl⟩

/-- C4 (amended): every record returned by `GetRecords` has a non-empty
`Type` and a non-empty `Name` (they are whitespace tokens of the line), but
its `Value` may be the empty string; records echoed by the write operations
are exactly a subsequence of the caller's input records, fields unchanged. -/
theorem C4_fields_populated :
    (∀ (response : String) (recs : List Record) (r : Record),
      getRecordsParse response = some recs → r ∈ recs →
      r.rtype ≠ "" ∧ r.name ≠ "") ∧
    (∀ (records : List Record) (ok : Nat → Bool),
      List.Sublist (processRecords ok 0 records) records) := by
  constructor
  · intro response recs r h hr
    obtain ⟨l, _, hpl⟩ := parseLines_mem _ recs r h hr
    obtain ⟨_, _, h3, hre⟩ := parseLine_record_inv l r hpl
    subst hre
    constructor
    · rw [recordFromParts_rtype]
      exact mem_goFields_ne _ _ (getD_mem_of_lt _ _ 1 (by omega))
    · rw [recordFromParts_name]
      exact mem_goFields_ne _ _ (getD_mem_of_lt _ _ 0 (by omega))
  · intro records ok
    exact processRecords_sublist records ok 0

/-- C4 witness: a concrete parsed record has non-empty `Type` and `Name`,
and a concrete one-record batch is echoed as a subsequence of itself. -/
theorem C4_fields_populated_witness :
    (({ rtype := "A", name := "example.com", value := "1.2.3.4",
        ttl := 300 * 1000000000 } : Record).rtype ≠ "" ∧
      ({ rtype := "A", name := "example.com", value := "1.2.3.4",
         ttl := 300 * 1000000000 } : Record).name ≠ "") ∧
    List.Sublist
      (processRecords alwaysOk 0
        [{ rtype := "A", name := "example.com", value := "1.2.3.4",
           ttl := 300 * 1000000000 }])
      [{ rtype := "A", name := "example.com", value := "1.2.3.4",
         ttl := 300 * 1000000000 }] :=
  ⟨C4_fields_populated.1 "151 example.com A 1.2.3.4:300"
      [{ rtype := "A", name := "example.com", value := "1.2.3.4",
         ttl := 300 * 1000000000 }]
      { rtype := "A", name := "example.com", value := "1.2.3.4",
        ttl := 300 * 1000000000 } (by decide) (by decide),
   C4_fields_populated.2
      [{ rtype := "A", name := "example.com", value := "1.2.3.4",
         ttl := 300 * 1000000000 }] alwaysOk⟩

/-- C5: for every kept response line parsed to an `SRV` record, with at
least 6 tokens the `Value` is the space-joined tokens 2..5, and with exactly
7 tokens the TTL equals the value re-derived from the colon suffix of token
6 (`baseTTL` of its colon split): a missing or non-numeric suffix leaves the
TTL parsed by the base parse, which for a 7-token line came from the same
token, so the re-derivation describes the final TTL exactly. -/
theorem C5_srv_rules :
    ∀ (line : String) (r : Record), parseLine line = LineParse.record r →
      r.rtype = "SRV" →
      (6 ≤ (goFields (goDrop line 4)).length →
        r.value = (goFields (goDrop line 4)).getD 2 "" ++ " " ++
          (goFields (goDrop line 4)).getD 3 "" ++ " " ++
          (goFields (goDrop line 4)).getD 4 "" ++ " " ++
          (goFields (goDrop line 4)).getD 5 "") ∧
      ((goFields (goDrop line 4)).length = 7 →
        r.ttl = baseTTL (splitColon ((goFields (goDrop line 4)).getD 6 ""))) := by
  intro line r hpl hsrv
  obtain ⟨_, _, _, hre⟩ := parseLine_record_inv line r hpl
  subst hre
  rw [recordFromParts_rtype] at hsrv
  constructor
  · intro h6
    exact recordFromParts_value_srv _ hsrv h6
  · intro h7
    rw [recordFromParts_ttl, h7]

/-- C5 witness: a 7-token SRV line. -/
theorem C5_srv_rules_witness :
    ({ rtype := "SRV", name := "x.example.com", value := "10 60 5060 target",
       ttl := 600 * 1000000000 } : Record).value = "10 60 5060 target" ∧
    ({ rtype := "SRV", name := "x.example.com", value := "10 60 5060 target",
       ttl := 600 * 1000000000 } : Record).ttl = 600 * 1000000000 :=
  ⟨((C5_srv_rules "151 x.example.com SRV 10 60 5060 target extra:600"
      { rtype := "SRV", name := "x.example.com", value := "10 60 5060 target",
        ttl := 600 * 1000000000 } (by decide) rfl).1 (by decide)).trans (by decide),
   ((C5_srv_rules "151 x.example.com SRV 10 60 5060 target extra:600"
      { rtype := "SRV", name := "x.example.com", value := "10 60 5060 target",
        ttl := 600 * 1000000000 } (by decide) rfl).2 (by decide)).trans (by decide)⟩

/-- C6: for every kept response line parsed to an `MX` record with exactly 4
tokens, the `Value` is token 2 (the priority field), as assigned at source
lines 100–102. -/
theorem C6_mx_value :
    ∀ (line : String) (r : Record), parseLine line = LineParse.record r →
      r.rtype = "MX" → (goFields (goDrop line 4)).length = 4 →
      r.value = (goFields (goDrop line 4)).getD 2 "" := by
  intro line r hpl hmx h4
  obtain ⟨_, _, _, hre⟩ := parseLine_record_inv line r hpl
  subst hre
  rw [recordFromParts_rtype] at hmx
  exact recordFromParts_value_mx _ hmx h4

/-- C6 witness: a 4-token MX line: the value is the priority `10`, not the
colon-stripped `mail.example.com`. -/
theorem C6_mx_value_witness :
    ({ rtype := "MX", name := "example.com", value := "10",
       ttl := 300 * 1000000000 } : Record).value = "10" :=
  (C6_mx_value "151 example.com MX 10 mail.example.com:300"
    { rtype := "MX", name := "example.com", value := "10",
      ttl := 300 * 1000000000 } (by decide) rfl (by decide)).trans (by decide)

/-- C7: the example line `151 example.com A 93.184.216.34:300` parses to the
record `{A, example.com, 93.184.216.34, 300s}`; and in general, for every
kept line, token 0 is the name, token 1 the type, the TTL comes from the
colon split of the last token (zero when the suffix is absent or
non-numeric, which is what `baseTTL` computes), and — outside the MX/SRV
overrides — the value is the part of the last token before the first
colon. -/
theorem C7_base_parse :
    getRecordsParse "151 example.com A 93.184.216.34:300" =
      some [{ rtype := "A", name := "example.com", value := "93.184.216.34",
              ttl := 300 * 1000000000 }] ∧
    ∀ (line : String) (r : Record), parseLine line = LineParse.record r →
      r.name = (goFields (goDrop line 4)).getD 0 "" ∧
      r.rtype = (goFields (goDrop line 4)).getD 1 "" ∧
      r.ttl = baseTTL (splitColon ((goFields (goDrop line 4)).getD
        ((goFields (goDrop line 4)).length - 1) "")) ∧
      (¬(r.rtype = "MX" ∧ (goFields (goDrop line 4)).length = 4) →
        ¬(r.rtype = "SRV" ∧ 6 ≤ (goFields (goDrop line 4)).length) →
        r.value = (splitColon ((goFields (goDrop line 4)).getD
          ((goFields (goDrop line 4)).length - 1) "")).getD 0 "") := by
  constructor
  · decide
  · intro line r hpl
    obtain ⟨_, _, _, hre⟩ := parseLine_record_inv line r hpl
    subst hre
    refine ⟨recordFromParts_name _, recordFromParts_rtype _,
      recordFromParts_ttl _, ?_⟩
    intro hmx hsrv
    rw [recordFromParts_rtype] at hmx hsrv
    exact recordFromParts_value_base _ hmx hsrv

/-- C7 witness: the general part applied to a TXT line. -/
theorem C7_base_parse_witness :
    ({ rtype := "TXT", name := "host.example.com", value := "hello",
       ttl := 42 * 1000000000 } : Record).name = "host.example.com" ∧
    ({ rtype := "TXT", name := "host.example.com", value := "hello",
       ttl := 42 * 1000000000 } : Record).ttl = 42 * 1000000000 :=
  ⟨((C7_base_parse.2 "151 host.example.com TXT hello:42"
      { rtype := "TXT", name := "host.example.com", value := "hello",
        ttl := 42 * 1000000000 } (by decide)).1).trans (by decide),
   ((C7_base_parse.2 "151 host.example.com TXT hello:42"
      { rtype := "TXT", name := "host.example.com", value := "hello",
        ttl := 42 * 1000000000 } (by decide)).2.2.1).trans (by decide)⟩

/-- C8: `SetRecords` builds `ADDRR <name> <type> <value>` with no TTL suffix
for every non-SRV record, and always appends `:<ttlSeconds>` for an SRV
record (source lines 164–167). -/
theorem C8_set_command_shape :
    ∀ r : Record,
      (r.rtype ≠ "SRV" →
        setCommand r = "ADDRR " ++ r.name ++ " " ++ r.rtype ++ " " ++ r.value) ∧
      (r.rtype = "SRV" →
        setCommand r = "ADDRR " ++ r.name ++ " " ++ r.rtype ++ " " ++ r.value ++
          ":" ++ toString (goSecondsInt r.ttl)) := by
  intro r
  constructor
  · intro h
    unfold setCommand
    rw [if_neg h]
  · intro h
    unfold setCommand
    rw [if_pos h]

/-- C8 witness: one non-SRV and one SRV record. -/
theorem C8_set_command_shape_witness :
    setCommand
        { rtype := "A", name := "www.example.com", value := "1.2.3.4",
          ttl := 600 * 1000000000 } = "ADDRR www.example.com A 1.2.3.4" ∧
    setCommand
        { rtype := "SRV", name := "_sip._tcp",
          value := "10 20 5060 sip.example.com", ttl := 600 * 1000000000 } =
      "ADDRR _sip._tcp SRV 10 20 5060 sip.example.com:600" :=
  ⟨((C8_set_command_shape
      { rtype := "A", name := "www.example.com",
        value := "1.2.3.4", ttl := 600 * 1000000000 }).1 (by decide)).trans
          (by decide),
   ((C8_set_command_shape
      { rtype := "SRV", name := "_sip._tcp",
        value := "10 20 5060 sip.example.com",
        ttl := 600 * 1000000000 }).2 rfl).trans (by decide)⟩

/-- C9: when the dial succeeded but the login exchange fails — an I/O error
on the banner or login exchange, or a login response without the substring
`225` — `connect` returns the error with the socket closed
(`failedClosed`); and every public operation whose `connect` does not yield
a connection returns an error having processed no record and sent no
command. -/
theorem C9_connect_failure :
    (∀ a : ConnAttempt, a.dialOk = true → loginRejected a →
      connect a = ConnectResult.failedClosed) ∧
    (∀ a : ConnAttempt, connect a ≠ ConnectResult.connected →
      (∀ zone listResp, GetRecords a zone listResp = (GoResult.failed, [])) ∧
      (∀ records ok, AppendRecords a records ok = (GoResult.failed, [])) ∧
      (∀ records ok, SetRecords a records ok = (GoResult.failed, [])) ∧
      (∀ records ok, DeleteRecords a records ok = (GoResult.failed, []))) := by
  constructor
  · intro a hd hrej
    unfold connect
    rw [if_pos hd]
    cases hb : a.banner with
    | err => rfl
    | resp b =>
      cases hl : a.login with
      | err => rfl
      | resp s =>
        rcases hrej with h | h | ⟨s', hs', hc⟩
        · rw [hb] at h
          exact absurd h (by simp)
        · rw [hl] at h
          exact absurd h (by simp)
        · rw [hl] at hs'
          injection hs' with hss
          subst hss
          simp [hc]
  · intro a hc
    refine ⟨?_, ?_, ?_, ?_⟩
    · intro zone listResp
      unfold GetRecords
      cases hcc : connect a with
      | connected => exact absurd hcc hc
      | noConn => rfl
      | failedClosed => rfl
    · intro records ok
      unfold AppendRecords
      cases hcc : connect a with
      | connected => exact absurd hcc hc
      | noConn => rfl
      | failedClosed => rfl
    · intro records ok
      unfold SetRecords
      cases hcc : connect a with
      | connected => exact absurd hcc hc
      | noConn => rfl
      | failedClosed => rfl
    · intro records ok
      unfold DeleteRecords
      cases hcc : connect a with
      | connected => exact absurd hcc hc
      | noConn => rfl
      | failedClosed => rfl

/-- C9 witness: a rejected login (`535 denied` has no `225`) fails closed,
and `AppendRecords` under that failed connect returns the error with no
command sent. -/
theorem C9_connect_failure_witness :
    connect attemptRejected = ConnectResult.failedClosed ∧
    AppendRecords attemptRejected
      [{ rtype := "A", name := "a", value := "1.2.3.4", ttl := 0 }] alwaysOk =
      (GoResult.failed, []) :=
  ⟨C9_connect_failure.1 attemptRejected rfl
      (Or.inr (Or.inr ⟨"535 denied", rfl, by decide⟩)),
   (C9_connect_failure.2 attemptRejected (by decide)).2.1
      [{ rtype := "A", name := "a", value := "1.2.3.4", ttl := 0 }] alwaysOk⟩

/-- C10: under a successful connect, when exactly the `k`-th record's
exchange fails, `AppendRecords` keeps iterating and returns, without an
error, exactly the input list with index `k` removed — one fewer record
than the input. -/
theorem C10_append_one_failure :
    ∀ (a : ConnAttempt) (records : List Record) (ok : Nat → Bool) (k : Nat),
      connect a = ConnectResult.connected →
      k < records.length →
      ok k = false →
      (∀ j, j < records.length → j ≠ k → ok j = true) →
      (AppendRecords a records ok).1 = GoResult.ok (records.eraseIdx k) ∧
      (records.eraseIdx k).length = records.length - 1 := by
  intro a records ok k hc hk hf hok
  constructor
  · unfold AppendRecords
    rw [hc]
    show GoResult.ok (processRecords ok 0 records) =
      GoResult.ok (records.eraseIdx k)
    rw [processRecords_one_fail records ok 0 k hk (by simpa using hf)
      (fun j hj hne => by simpa using hok j hj hne)]
  · exact length_eraseIdx_of_lt records k hk

/-- C10 witness: three records with the middle exchange failing: the first
and third are echoed, the second is dropped, with no batch error. -/
theorem C10_append_one_failure_witness :
    (AppendRecords attemptOk
      [{ rtype := "A", name := "a", value := "1", ttl := 0 },
       { rtype := "A", name := "b", value := "2", ttl := 0 },
       { rtype := "A", name := "c", value := "3", ttl := 0 }] (failAt 1)).1 =
      GoResult.ok
        [{ rtype := "A", name := "a", value := "1", ttl := 0 },
         { rtype := "A", name := "c", value := "3", ttl := 0 }] :=
  ((C10_append_one_failure attemptOk
      [{ rtype := "A", name := "a", value := "1", ttl := 0 },
       { rtype := "A", name := "b", value := "2", ttl := 0 },
       { rtype := "A", name := "c", value := "3", ttl := 0 }] (failAt 1) 1
      (by decide) (by decide) (by decide)
      (fun j hj hne => by
        have hj3 : j < 3 := by simpa using hj
        have hj2 : j = 0 ∨ j = 2 := by omega
        rcases hj2 with h | h <;> subst h <;> decide)).1).trans (by decide)

end LibdnsOds
